import Mathlib

/-!
Shallow embedding of the Retrieval & Index Management subsystem of the
RAG_Local_files_ke-sites repository (src/src/vector_store.py,
src/src/document_processor.py, src/src/cache.py, src/src/web_search.py,
src/src/config.py), together with theorems settling the frozen claims
about its specification.

Python machine-level details are modelled as follows: exceptions become
`Except` results (an error value carries the in-place-mutated object state
at the raise point, since Python mutates `self` before the exception
propagates); the filesystem contents relevant to the store (the persisted
index/metadata files, the backup directory, the on-disk cache) are explicit
fields of a state record; wall-clock timestamps and the external
embedding/scoring capability are parameters.
-/

namespace RagKe

/-- Metadata values occurring in the repository: strings and ints
(`source`, `chunk_hash` are strings; `chunk_id`, `chunk_size`,
`total_chunks`, `start_index` are ints). -/
inductive MVal where
  | str (s : String)
  | int (n : Int)
deriving DecidableEq, Repr

/-- A Python dict with string keys, modelled as an association list in
insertion order (Python dicts preserve insertion order). -/
abbrev Metadata := List (String × MVal)

/-- Python `d[k] = v`: update in place when the key exists, append otherwise —
Python dict assignment / `dict.update` semantics. -/
def setKey : Metadata → String → MVal → Metadata
  | [], k, v => [(k, v)]
  | (k', v') :: rest, k, v =>
      if k' = k then (k, v) :: rest else (k', v') :: setKey rest k v

/-- Python `langchain.schema.Document`: page content plus metadata. -/
structure Document where
  page_content : String
  metadata : Metadata
deriving DecidableEq, Repr

/-! ## Cache layer (src/src/cache.py)

`Cache` wraps a `diskcache.Cache`. An entry is (key, value, absolute
expiry instant); `diskcache` computes the expiry as now + expire at `set`
time and treats an entry whose expiry has passed as absent at `get` time.
Values are modelled as strings (the repository caches stringly data). -/

structure CacheEntry where
  key : String
  value : String
  expireAt : Int
deriving DecidableEq, Repr

abbrev CacheState := List CacheEntry

/-- Python `diskcache.Cache.set`: replaces an existing entry for the key, else
appends. -/
def setEntry : CacheState → CacheEntry → CacheState
  | [], e => [e]
  | x :: xs, e => if x.key = e.key then e :: xs else x :: setEntry xs e

/-- The default TTL set in `Cache.__init__`: `self.ttl = 3600`. -/
def Cache.defaultTtl : Int := 3600

/-- The expire argument passed to `diskcache` by `Cache.set`:
`expire=ttl or self.ttl`.  Python `or` is a truthiness test: `None` and
`0` are both falsy, so both select the default; any non-zero int is
returned as is. -/
def Cache.effectiveExpire (ttl : Option Int) : Int :=
  match ttl with
  | none => Cache.defaultTtl
  | some t => if t = 0 then Cache.defaultTtl else t

/-- Python `Cache.set(key, value, ttl)` at wall-clock instant `now`. -/
def Cache.set (st : CacheState) (key value : String) (ttl : Option Int)
    (now : Int) : CacheState :=
  setEntry st ⟨key, value, now + Cache.effectiveExpire ttl⟩

/-- Python `Cache.get(key)` at wall-clock instant `now`: `diskcache` returns the
stored value while the expiry instant lies in the future, `None`
otherwise. -/
def Cache.get (st : CacheState) (key : String) (now : Int) : Option String :=
  match st.find? (fun e => e.key = key) with
  | none => none
  | some e => if now < e.expireAt then some e.value else none

/-! ### String primitives

The built-in `String` functions for splitting, trimming, case folding and
affix tests are re-implemented structurally over the character list so
concrete runs reduce inside the kernel; each mirrors the corresponding
Python `str` operation used by the source. -/

/-- Does `pat` occur at the head of `l`? -/
def matchesAt : List Char → List Char → Bool
  | [], _ => true
  | _ :: _, [] => false
  | a :: as, b :: bs => a = b && matchesAt as bs

/-- Is `suf` a suffix of `l`?  (Python `str.endswith`.) -/
def isSuffixList (suf l : List Char) : Bool :=
  suf == l.drop (l.length - suf.length)

def endsWithStr (s suf : String) : Bool := isSuffixList suf.toList s.toList

/-- Python `str.lower()` on the ASCII range (the allow-listed suffixes
and the domains of web links are ASCII). -/
def charLower (c : Char) : Char :=
  if 'A' ≤ c ∧ c ≤ 'Z' then Char.ofNat (c.toNat + 32) else c

def lowerStr (s : String) : String := String.mk (s.toList.map charLower)

/-- Python `str.strip()` (ASCII whitespace). -/
def trimStr (s : String) : String :=
  String.mk
    (((s.toList.dropWhile Char.isWhitespace).reverse.dropWhile
      Char.isWhitespace).reverse)

/-- The worker of `str.split(sep)` for a non-empty separator: scan left
to right, cutting at each non-overlapping occurrence.  `fuel` is the
character count of the scanned text, consumed one character per step, so
the middle case is unreachable. -/
def splitOnGo (sep : List Char) : Nat → List Char → List Char →
    List (List Char)
  | _, [], acc => [acc.reverse]
  | 0, t, acc => [acc.reverse ++ t]
  | fuel + 1, c :: rest, acc =>
      if matchesAt sep (c :: rest) then
        acc.reverse :: splitOnGo sep fuel (List.drop (sep.length - 1) rest) []
      else
        splitOnGo sep fuel rest (c :: acc)

/-- Python `text.split(sep)` for a non-empty `sep` (every separator the
splitter passes is non-empty at this call site). -/
def splitOnStr (text sep : String) : List String :=
  (splitOnGo sep.toList text.toList.length text.toList []).map String.mk

/-! ## Web search (src/src/web_search.py with src/src/config.py) -/

/-- Python `Config.KENYA_DOMAINS`. -/
def KENYA_DOMAINS : List String := [".ke", "co.ke", "ac.ke", "go.ke", "or.ke"]

/-- Python `urllib.parse.urlparse(url).netloc`: the netloc is present only when
the (scheme-stripped) URL starts with `//`; it extends to the next
`/`, `?` or `#`.  A scheme is a leading `alpha (alnum | + | - | .)*`
prefix terminated by `:`. -/
def schemeChars (c : Char) : Bool :=
  c.isAlpha || c.isDigit || c = '+' || c = '-' || c = '.'

def stripScheme (url : List Char) : List Char :=
  let pre := url.takeWhile (fun c => c ≠ ':')
  if pre.length < url.length && pre.length > 0 &&
      (pre.all schemeChars) && (pre.headI.isAlpha) then
    url.drop (pre.length + 1)
  else url

def netloc (url : String) : String :=
  match stripScheme url.toList with
  | '/' :: '/' :: tail =>
      String.mk (tail.takeWhile (fun c => c ≠ '/' && c ≠ '?' && c ≠ '#'))
  | _ => ""

/-- Python `KenyanWebSearch.is_kenyan_domain`: lower-cases the netloc and tests
`endswith` against each allow-listed suffix. -/
def isKenyanDomain (url : String) : Bool :=
  KENYA_DOMAINS.any (fun tld => endsWithStr (lowerStr (netloc url)) tld)

/-- One raw hit from the `duckduckgo_search` provider (`title`, `link`,
`body`). -/
structure Hit where
  title : String
  link : String
  body : String
deriving DecidableEq, Repr

/-- The dict appended by `KenyanWebSearch.search` for a kept hit. -/
structure SearchResult where
  title : String
  link : String
  snippet : String
deriving DecidableEq, Repr

def toResult (h : Hit) : SearchResult := ⟨h.title, h.link, h.body⟩

/-- The accumulation loop of `KenyanWebSearch.search`: iterate the
provider hits in order, appending a hit when it passes the domain test
and the accumulator still has room (`len(results) < max_results`). -/
def searchLoop (maxResults : Nat) : List Hit → List SearchResult → List SearchResult
  | [], acc => acc
  | r :: rest, acc =>
      if isKenyanDomain r.link && decide (acc.length < maxResults) then
        searchLoop maxResults rest (acc ++ [toResult r])
      else
        searchLoop maxResults rest acc

/-- Python `KenyanWebSearch.search(query, max_results)`, where `max_results`
defaults to 5 and every repository call site uses that default.  The
provider call `self.ddgs.text(query, max_results=20)` is the external
web-search capability; its returned hit list is the `hits` parameter. -/
def KenyanWebSearch.search (hits : List Hit) (maxResults : Nat) :
    List SearchResult :=
  searchLoop maxResults hits []

/-! ## Document processor (src/src/document_processor.py)

`DocumentProcessor.__init__(chunk_size=1000, chunk_overlap=200)` builds a
`langchain` `RecursiveCharacterTextSplitter` with `length_function=len`
and `add_start_index=True`.  The splitter (from the
`langchain_text_splitters` package the repository depends on) is embedded
below at its default configuration for this call site:
`separators=["\n\n", "\n", " ", ""]`, `keep_separator=True`,
`is_separator_regex=False` (so every separator is a literal string),
`strip_whitespace=True`. -/

/-- Python `hashlib.sha256(content).hexdigest()` in
`DocumentProcessor._generate_chunk_hash`.  The digest is modelled by a
simple pure accumulator over the characters: every claim uses only that
the digest is a deterministic pure function of the chunk content, never a
concrete SHA-256 value. -/
def sha256Hex (s : String) : String :=
  toString (s.toList.foldl (fun h c => (h * 33 + c.toNat) % 2 ^ 64) 5381)

/-- Python `re.search(re.escape(pat), text)` for a non-empty literal `pat`:
substring containment. -/
def containsSubstr (text pat : String) : Bool :=
  (splitOnStr text pat).length ≠ 1

/-- The separator-selection loop at the top of
`RecursiveCharacterTextSplitter._split_text`: `separator` defaults to the
last separator with no remaining separators; the loop breaks at the first
separator that is `""` (keeping `new_separators = []`) or that occurs in
the text (taking the remaining suffix as `new_separators`). -/
def chooseSep (seps : List String) (text : String) : String × List String :=
  go seps
where
  go : List String → String × List String
    | [] => (seps.getLastD "", [])
    | s :: rest =>
        if s = "" then ("", [])
        else if containsSubstr text s then (s, rest) else go rest

/-- Python `_split_text_with_regex(text, re.escape(separator), keep_separator=True)`:
for the empty separator, `list(text)`; otherwise split on the literal
separator keeping each separator attached to the *following* piece, and
drop empty pieces. -/
def splitKeepSep (text separator : String) : List String :=
  if separator = "" then
    (text.toList.map (fun c => String.mk [c])).filter (fun s => s ≠ "")
  else
    match splitOnStr text separator with
    | [] => []
    | t0 :: rest =>
        (t0 :: rest.map (fun t => separator ++ t)).filter (fun s => s ≠ "")

/-- Python `TextSplitter._join_docs(docs, separator)` with the default
`strip_whitespace=True`: join, strip, and drop a resulting empty string. -/
def joinDocs (docs : List String) (separator : String) : Option String :=
  let text := trimStr (String.intercalate separator docs)
  if text = "" then none else some text

/-- The inner `while` of `TextSplitter._merge_splits`, popping the front
of `current_doc` while the running total is above the overlap (or the
next split still does not fit).  The extra empty-list guard only rules
out the non-termination Python would exhibit for a negative overlap, a
configuration never used by the repository. -/
def popLoop (chunkSize chunkOverlap sepLen len : Int) :
    List String → Int → List String × Int
  | [], total => ([], total)
  | c :: rest, total =>
      if total > chunkOverlap ∨
          (total + len + (if (c :: rest).length > 0 then sepLen else 0) > chunkSize
            ∧ total > 0) then
        popLoop chunkSize chunkOverlap sepLen len rest
          (total - (c.length : Int) - (if rest.length > 0 then sepLen else 0))
      else (c :: rest, total)

/-- The running state of `TextSplitter._merge_splits`: emitted docs, the
current window of splits, and the window's running length total. -/
structure MergeState where
  docs : List String
  current : List String
  total : Int
deriving DecidableEq, Repr

/-- One iteration of the `for d in splits` loop of `_merge_splits`. -/
def mergeStep (chunkSize chunkOverlap sepLen : Int) (separator : String)
    (ms : MergeState) (d : String) : MergeState :=
  let len : Int := d.length
  let ms :=
    if ms.total + len + (if ms.current.length > 0 then sepLen else 0) > chunkSize then
      if ms.current.length > 0 then
        let docs :=
          match joinDocs ms.current separator with
          | some doc => ms.docs ++ [doc]
          | none => ms.docs
        let (current, total) :=
          popLoop chunkSize chunkOverlap sepLen len ms.current ms.total
        ⟨docs, current, total⟩
      else ms
    else ms
  ⟨ms.docs, ms.current ++ [d],
    ms.total + len + (if ms.current.length + 1 > 1 then sepLen else 0)⟩

/-- Python `TextSplitter._merge_splits(splits, separator)`. -/
def mergeSplits (chunkSize chunkOverlap : Int) (splits : List String)
    (separator : String) : List String :=
  let sepLen : Int := separator.length
  let final := splits.foldl (mergeStep chunkSize chunkOverlap sepLen separator)
    ⟨[], [], 0⟩
  match joinDocs final.current separator with
  | some doc => final.docs ++ [doc]
  | none => final.docs

/-- Flush `_good_splits` through `_merge_splits` (with the merge
separator `""`, since `keep_separator=True`) onto `final_chunks`. -/
def flushGood (chunkSize chunkOverlap : Int) (final good : List String) :
    List String :=
  if good = [] then final else final ++ mergeSplits chunkSize chunkOverlap good ""

/-- Python `RecursiveCharacterTextSplitter._split_text(text, separators)`.  The
`for s in splits` loop carries `(_good_splits, final_chunks)`: a split
shorter than `chunk_size` is collected; a longer one flushes the good
splits and is either emitted as is (no remaining separators) or split
recursively with the remaining separators.  `fuel` bounds the nesting
depth; every recursive call passes a strictly shorter separator list, so
any `fuel ≥ seps.length` makes the `0` case unreachable. -/
def rsSplitText (chunkSize chunkOverlap : Int) :
    Nat → List String → String → List String
  | 0, _, _ => []
  | fuel + 1, seps, text =>
      let sp := chooseSep seps text
      let splits := splitKeepSep text sp.1
      let newSeps := sp.2
      let step := fun (st : List String × List String) (s : String) =>
        if (s.length : Int) < chunkSize then (st.1 ++ [s], st.2)
        else
          let final' := flushGood chunkSize chunkOverlap st.2 st.1
          if newSeps = [] then ([], final' ++ [s])
          else ([], final' ++ rsSplitText chunkSize chunkOverlap fuel newSeps s)
      let res := splits.foldl step ([], [])
      flushGood chunkSize chunkOverlap res.2 res.1

/-- The default separator list of `RecursiveCharacterTextSplitter`. -/
def defaultSeparators : List String := ["\n\n", "\n", " ", ""]

/-- Python `RecursiveCharacterTextSplitter.split_text(text)` at the repository's
configuration. -/
def splitText (chunkSize chunkOverlap : Int) (text : String) : List String :=
  rsSplitText chunkSize chunkOverlap defaultSeparators.length defaultSeparators text

/-- Python `text.find(pat, start)`: lowest character index `≥ start` at
which `pat` occurs in `text`, `-1` when there is none. -/
def strFind (text pat : String) (start : Nat) : Int :=
  match (List.range (text.length + 1)).find?
      (fun i => decide (start ≤ i) && decide ((text.drop i).take pat.length = pat)) with
  | some i => (i : Int)
  | none => -1

/-- The inner chunk loop of `TextSplitter.create_documents` with
`add_start_index=True`: each chunk's `start_index` is located by
`text.find(chunk, max(0, index + previous_chunk_len - chunk_overlap))`. -/
def createDocsGo (chunkOverlap : Int) (metadata : Metadata) (text : String) :
    List String → Int → Int → List Document
  | [], _, _ => []
  | chunk :: rest, index, prevLen =>
      let offset : Int := index + prevLen - chunkOverlap
      let idx : Int := strFind text chunk offset.toNat
      ⟨chunk, setKey metadata "start_index" (.int idx)⟩ ::
        createDocsGo chunkOverlap metadata text rest idx (chunk.length : Int)

/-- Python `TextSplitter.create_documents([text], metadatas=[metadata])` for one
source text (metadata is deep-copied per chunk, which value semantics
give for free). -/
def createDocuments (chunkSize chunkOverlap : Int) (text : String)
    (metadata : Metadata) : List Document :=
  createDocsGo chunkOverlap metadata text (splitText chunkSize chunkOverlap text) 0 0

/-- Python `TextSplitter.split_documents(documents)`: split each document's page
content, carrying its metadata. -/
def splitDocuments (chunkSize chunkOverlap : Int) (documents : List Document) :
    List Document :=
  (documents.map (fun d =>
    createDocuments chunkSize chunkOverlap d.page_content d.metadata)).flatten

/-- The `DocumentProcessor` configuration: the two splitter parameters. -/
structure DocumentProcessor where
  chunk_size : Int
  chunk_overlap : Int
deriving DecidableEq, Repr

/-- Python `DocumentProcessor(chunk_size, chunk_overlap)`:
`TextSplitter.__init__` raises
`ValueError("Got a larger chunk overlap ... than chunk size ...")` when
`chunk_overlap > chunk_size`, and only then. -/
def DocumentProcessor.make (chunk_size chunk_overlap : Int) :
    Except String DocumentProcessor :=
  if chunk_overlap > chunk_size then
    .error "Got a larger chunk overlap than chunk size, should be smaller."
  else
    .ok ⟨chunk_size, chunk_overlap⟩

/-- Python `DocumentProcessor()` as constructed by `VectorStore.__init__`
(defaults `chunk_size=1000, chunk_overlap=200`). -/
def defaultProcessor : DocumentProcessor := ⟨1000, 200⟩

/-- The metadata enrichment loop of `DocumentProcessor.chunk_documents`:
`chunk.metadata.update({'chunk_id': i, 'chunk_hash': ..., 'chunk_size':
..., 'total_chunks': ...})`. -/
def enrichChunk (total : Nat) (i : Nat) (chunk : Document) : Document :=
  ⟨chunk.page_content,
    setKey (setKey (setKey (setKey chunk.metadata
      "chunk_id" (.int i))
      "chunk_hash" (.str (sha256Hex chunk.page_content)))
      "chunk_size" (.int (chunk.page_content.length : Int)))
      "total_chunks" (.int total)⟩

/-- Python `DocumentProcessor.chunk_documents(documents)`.  The splitter and the
metadata loop are total, so the `try/except` wrapper never fires: the
function is pure, deterministic and performs no I/O. -/
def chunkDocuments (p : DocumentProcessor) (documents : List Document) :
    List Document :=
  let chunks := splitDocuments p.chunk_size p.chunk_overlap documents
  (chunks.enum.map (fun ci => enrichChunk chunks.length ci.1 ci.2))

/-- The statistics dict of `DocumentProcessor.get_chunk_stats`. -/
structure ChunkStats where
  total_chunks : Nat
  average_chunk_size : ℚ
  largest_chunk : Nat
  smallest_chunk : Nat
deriving DecidableEq, Repr

/-- Python `DocumentProcessor.get_chunk_stats(chunks)`: on the empty list the
average `sum(...) / len(chunks)` raises `ZeroDivisionError` (and
`max`/`min` are over empty sequences), which the `except` clause wraps
and re-raises; otherwise the dict is returned. -/
def getChunkStats (chunks : List Document) : Except String ChunkStats :=
  match chunks with
  | [] => .error "Error calculating chunk statistics: division by zero"
  | c :: cs =>
      .ok ⟨chunks.length,
        ((chunks.map (fun d => d.page_content.length)).sum : ℚ) / (chunks.length : ℚ),
        (cs.map (fun d => d.page_content.length)).foldl max c.page_content.length,
        (cs.map (fun d => d.page_content.length)).foldl min c.page_content.length⟩

/-! ## Vector store (src/src/vector_store.py)

A `VectorStore` wraps a `langchain` FAISS store.  Two *different* file
pairs under `persist_dir` matter, and the source confuses them:

* `FAISS.save_local(persist_dir)` / `FAISS.load_local(persist_dir, ...)`
  read and write `index.faiss` and `index.pkl` (the default
  `index_name="index"`);
* the class's own `self.index_file = persist_dir/"faiss_index"` and
  `self.store_file = persist_dir/"store.pkl"` are file names that
  `save_local` never creates; they are only ever *checked* (by
  `create_backup` and by `_load_or_create_store`'s existence gate),
  *copied* (by `create_backup`) or *written* (by `restore_backup`'s
  copy-back).

The embedded state gathers everything the claims observe:

* `mem` — the in-memory FAISS store (`self.vector_store`): docstore
  entries in insertion order, an entry being (id, text, metadata); the
  uuid4 ids FAISS generates are modelled by a fresh-id counter `nextId`.
* `persisted` — the contents of the `index.faiss`/`index.pkl` pair, the
  pair `save_local` writes and `load_local` reads (`none`: absent).
* `indexFile` — the contents of the `faiss_index`/`store.pkl` pair, the
  names the class's own code checks and copies (`none`: absent; the two
  files are only ever written together, so they are modelled jointly).
  No program execution ever creates this pair except `restore_backup`'s
  copy-back, so on every state the program itself produces it is `none`.
* `backups` — the `backups/backup_<timestamp>` directories, an
  association list timestamp ↦ copied `faiss_index`/`store.pkl` contents.
* `cache` — the entries of `self.cache.cache` (the disk cache).

The embedding-model call inside FAISS is the external embedder
capability; similarity scoring is a parameter of `similarity_search`. -/

structure Entry where
  id : String
  text : String
  metadata : Metadata
deriving DecidableEq, Repr

structure VSState where
  mem : List Entry
  nextId : Nat
  persisted : Option (List Entry)
  indexFile : Option (List Entry)
  backups : List (String × List Entry)
  cache : CacheState
deriving DecidableEq, Repr

/-- Fresh uuid generation for FAISS `add_texts`, modelled by a counter. -/
def freshId (n : Nat) : String := "uuid-" ++ toString n

/-- The entries FAISS `add_texts` appends for the given texts/metadatas
pairs (`zip`: FAISS pairs them positionally). -/
def buildEntries : Nat → List (String × Metadata) → List Entry
  | _, [] => []
  | n, (t, m) :: rest => ⟨freshId n, t, m⟩ :: buildEntries (n + 1) rest

/-- Python `FAISS.add_texts(texts, metadatas)` on the docstore: append new
entries in order under fresh ids. -/
def addTexts (mem : List Entry) (nextId : Nat) (texts : List String)
    (metadatas : List Metadata) : List Entry × Nat :=
  (mem ++ buildEntries nextId (texts.zip metadatas), nextId + texts.length)

/-- Write/overwrite the backup directory named `ts`
(`os.makedirs(..., exist_ok=True)` then `shutil.copy2` overwrites). -/
def setAssoc : List (String × List Entry) → String → List Entry →
    List (String × List Entry)
  | [], ts, p => [(ts, p)]
  | (ts', p') :: rest, ts, p =>
      if ts' = ts then (ts, p) :: rest else (ts', p') :: setAssoc rest ts p

def lookupAssoc : List (String × List Entry) → String → Option (List Entry)
  | [], _ => none
  | (ts', p') :: rest, ts => if ts' = ts then some p' else lookupAssoc rest ts

/-- Python `VectorStore._create_new_store()`: a fresh FAISS store holding the
single dummy document `"initialization document"` with metadata
`{"source": "initialization"}`.  Nothing removes the dummy document. -/
def createNewStore (nextId : Nat) : List Entry × Nat :=
  ([⟨freshId nextId, "initialization document", [("source", .str "initialization")]⟩],
    nextId + 1)

/-- Python `VectorStore._load_or_create_store()`.  The existence gate
tests `self.index_file`/`self.store_file` — the `faiss_index`/`store.pkl`
pair (`indexFile`), which `save_local` never creates.  Only when that
gate passes does it attempt `FAISS.load_local(persist_dir)`, which reads
the *other* pair, `index.faiss`/`index.pkl` (`persisted`): if those files
are missing the load raises (caught, logged), and `corrupt` injects a
deserialization failure; both cases are answered with a fresh
dummy-seeded store, as is a failing existence gate.  In particular a
store persisted by `save_local` alone never passes the gate and is
reloaded as a fresh dummy store. -/
def loadOrCreateStore (indexFile persisted : Option (List Entry))
    (corrupt : Bool) (nextId : Nat) : List Entry × Nat :=
  match indexFile with
  | none => createNewStore nextId
  | some _ =>
      match persisted with
      | none => createNewStore nextId
      | some contents =>
          if corrupt then createNewStore nextId else (contents, nextId)

/-- Python `VectorStore.create_backup()` at timestamp `ts`: it checks
`os.path.exists(self.index_file)` — the `faiss_index` name that
`FAISS.save_local` never writes — so it answers
`"No vector store to backup"` whenever that pair is absent (that is, on
every state the program itself produces, however much `save_local` has
persisted), and only in the otherwise-unreachable case where the pair
exists does it copy it into `backups/backup_<ts>`. -/
def createBackup (st : VSState) (ts : String) : VSState × String :=
  match st.indexFile with
  | none => (st, "No vector store to backup")
  | some p =>
      ({ st with backups := setAssoc st.backups ts p },
        "Backup created at backup_" ++ ts)

/-- Python `VectorStore.restore_backup(backup_timestamp)`: answer "not
found" when the backup directory is absent; otherwise copy the snapshot
files onto `self.index_file`/`self.store_file` — the
`faiss_index`/`store.pkl` pair — and reload via
`_load_or_create_store()`.  The reload's existence gate now passes (the
pair was just written), but `FAISS.load_local` reads the untouched
`index.faiss`/`index.pkl` pair, so the live store becomes the *old*
persisted contents (or a fresh dummy store when those files are absent);
the snapshot contents never become live.  The cache is not touched. -/
def restoreBackup (st : VSState) (ts : String) : VSState × String :=
  match lookupAssoc st.backups ts with
  | none => (st, "Backup " ++ ts ++ " not found")
  | some contents =>
      let st1 := { st with indexFile := some contents }
      let mn := loadOrCreateStore st1.indexFile st1.persisted false st1.nextId
      ({ st1 with mem := mn.1, nextId := mn.2 },
        "Restored from backup " ++ ts)

/-- Injection points for the runtime failures the broad
`except Exception` clauses of `add_documents`/`delete_document` can
catch: the chunker raising inside `chunk_documents`, `shutil` failing
during `create_backup`, the embedder failing inside `add_texts`, and
`save_local` failing.  `none` of them fire on the happy path. -/
structure FailSpec where
  failChunk : Bool
  failBackup : Bool
  failAdd : Bool
  failSave : Bool
deriving DecidableEq, Repr

def noFail : FailSpec := ⟨false, false, false, false⟩

/-- The failure mode where only the post-mutation `save_local` raises. -/
def saveFail : FailSpec := ⟨false, false, false, true⟩

/-- Python `VectorStore.add_documents(documents)` at timestamp `ts`.  Mirrors
the source order: chunk, prepare texts/metadatas, `create_backup`, early
return when `texts` is empty, `add_texts`, `save_local`,
`self.cache.cache.clear()`.  Any exception is caught and re-raised as
`Exception("Error adding documents: ...")` — with no restore; the error
therefore carries the state exactly as mutated up to the raise point. -/
def addDocuments (st : VSState) (docs : List Document) (ts : String)
    (f : FailSpec) : Except (String × VSState) VSState :=
  if f.failChunk then .error ("Error adding documents: chunking failure", st) else
  let chunks := chunkDocuments defaultProcessor docs
  let texts := chunks.map (fun c => c.page_content)
  let metadatas := chunks.map (fun c => c.metadata)
  if f.failBackup then .error ("Error adding documents: backup failure", st) else
  let st1 := (createBackup st ts).1
  if texts.isEmpty then .ok st1 else
  if f.failAdd then .error ("Error adding documents: embedding failure", st1) else
  let mn := addTexts st1.mem st1.nextId texts metadatas
  let st2 := { st1 with mem := mn.1, nextId := mn.2 }
  if f.failSave then .error ("Error adding documents: save failure", st2) else
  let st3 := { st2 with persisted := some st2.mem }
  .ok { st3 with cache := [] }

/-- Python `VectorStore.delete_document(document_id)` at timestamp `ts`:
`create_backup`, `self.vector_store.delete(document_id)`, `_save_store`,
`self.cache.cache.clear()`.  The source passes the id as a plain `str`,
and langchain's `FAISS.delete(ids)` computes
`set(ids).difference(self.index_to_docstore_id.values())` — iterating
the string *character by character* — raising
`ValueError("Some specified ids do not exist ...")` when any
single-character string of `document_id` is not a docstore id, and
otherwise removing the entries whose ids occur among those characters.
Since FAISS docstore ids are uuid4 strings (never single characters),
every delete of a non-empty id raises before any removal in the real
program; `delete("")` degenerates to a successful no-op removal.  As for
add, any exception is wrapped as
`Exception("Error deleting document: ...")` and re-raised with no
restore. -/
def deleteDocument (st : VSState) (docId : String) (ts : String)
    (f : FailSpec) : Except (String × VSState) VSState :=
  if f.failBackup then .error ("Error deleting document: backup failure", st) else
  let st1 := (createBackup st ts).1
  let charIds := docId.toList.map (fun c => String.mk [c])
  if charIds.any (fun cid => st1.mem.all (fun e => e.id ≠ cid)) then
    .error ("Error deleting document: Some specified ids do not exist", st1)
  else
  let st2 := { st1 with
    mem := st1.mem.filter (fun e => charIds.all (fun cid => e.id ≠ cid)) }
  if f.failSave then .error ("Error deleting document: save failure", st2) else
  let st3 := { st2 with persisted := some st2.mem }
  .ok { st3 with cache := [] }

/-- Descending-score insertion sort: FAISS returns the `k` nearest
entries ordered by similarity. -/
def insertByScore (score : Entry → Int) (e : Entry) : List Entry → List Entry
  | [] => [e]
  | x :: xs =>
      if score e ≥ score x then e :: x :: xs else x :: insertByScore score e xs

def sortByScoreDesc (score : Entry → Int) : List Entry → List Entry
  | [] => []
  | x :: xs => insertByScore score x (sortByScoreDesc score xs)

/-- The underlying `FAISS.similarity_search(query, k, filter)`: embed the
query (the external embedder capability, whose failure `embedFails`
injects), keep the entries passing the metadata filter, rank by the
similarity score `score` and return the best `k` as documents. -/
def faissSimilaritySearch (entries : List Entry) (query : String) (k : Nat)
    (score : String → String → Int) (embedFails : Bool)
    (filter : Option (Metadata → Bool)) : Except String (List Document) :=
  if embedFails then .error "EmbeddingError" else
  let pool := match filter with
    | none => entries
    | some p => entries.filter (fun e => p e.metadata)
  .ok (((sortByScoreDesc (fun e => score query e.text) pool).take k).map
    (fun e => ⟨e.text, e.metadata⟩))

/-- Python `VectorStore.similarity_search(query, k=4, filter=None)`: any
exception from the underlying search (embedder failure included) is
caught, printed, and answered with `[]` — the function never raises. -/
def similaritySearch (st : VSState) (query : String) (k : Nat)
    (filter : Option (Metadata → Bool)) (score : String → String → Int)
    (embedFails : Bool) : List Document :=
  match faissSimilaritySearch st.mem query k score embedFails filter with
  | .error _ => []
  | .ok r => r

/-- Python `VectorStore.get_stats()`: `total_documents =
len(index_to_docstore_id)` and `total_vectors = index.ntotal`, both the
entry count (the vector dimension and on-disk size are
environment-dependent and observed by no claim). -/
def getStats (st : VSState) : Nat × Nat := (st.mem.length, st.mem.length)

/-! ## Theorems -/

/-- Looking up a key right after `setEntry` stored an entry under it
yields that entry. -/
lemma find_setEntry (st : CacheState) (k v : String) (t : Int) :
    (setEntry st ⟨k, v, t⟩).find? (fun x => x.key = k) = some ⟨k, v, t⟩ := by
  induction st with
  | nil => simp [setEntry, List.find?]
  | cons x xs ih =>
      by_cases h : x.key = k
      · simp [setEntry, h, List.find?]
      · simp only [setEntry, if_neg h, List.find?]
        simp [h, ih]

/-- C9: `Cache.set` defaults the TTL through the Python truthiness test
`ttl or self.ttl`, so an explicit `ttl=0` (falsy, like `None`) stores the
entry with the default 3600-second TTL instead of an immediate expiry:
the call is indistinguishable from `ttl=None`, the stored expiry lies
3600 seconds in the future, and an immediate `get` still returns the
value. -/
theorem cache_set_ttl_zero_uses_default (st : CacheState) (k v : String)
    (now : Int) :
    Cache.set st k v (some 0) now = Cache.set st k v none now ∧
    Cache.effectiveExpire (some 0) = 3600 ∧
    Cache.set st k v (some 0) now = setEntry st ⟨k, v, now + 3600⟩ ∧
    Cache.get (Cache.set st k v (some 0) now) k now = some v := by
  refine ⟨rfl, rfl, rfl, ?_⟩
  show Cache.get (setEntry st ⟨k, v, now + 3600⟩) k now = some v
  simp only [Cache.get]
  rw [find_setEntry st k v (now + 3600)]
  simp only []
  rw [if_pos (by omega)]

/-- C10: `get_chunk_stats` on an empty chunk list always raises — the
average divides by `len(chunks) = 0` — so no statistics dict is ever
returned for zero chunks. -/
theorem get_chunk_stats_empty_raises :
    getChunkStats [] =
      .error "Error calculating chunk statistics: division by zero" := rfl

/-- C4 counterexample: a store freshly created by
`_load_or_create_store` (no file of either pair exists) holds exactly
one entry — the `"initialization document"` placeholder, which is never
removed — not zero entries as the claim states. -/
theorem load_or_create_placeholder_counterexample :
    (loadOrCreateStore none none false 0).1.length = 1 ∧
    (loadOrCreateStore none none false 0).1 =
      [⟨"uuid-0", "initialization document",
        [("source", .str "initialization")]⟩] := by
  exact ⟨rfl, rfl⟩

/-- C4 amended: whenever `_load_or_create_store` does not load an
existing store — its `faiss_index`/`store.pkl` existence gate fails
(whatever `save_local` has persisted), or the gate passes but the
`index.faiss`/`index.pkl` pair is missing so `FAISS.load_local` raises,
or the load hits a deserialization failure — it yields a fresh store
seeded with the single `"initialization document"` placeholder entry,
which stays resident: the fresh store has one entry, not zero. -/
theorem load_or_create_failure_keeps_placeholder (pf p : List Entry)
    (c : Bool) (n : Nat) :
    loadOrCreateStore none (some p) c n = createNewStore n ∧
    loadOrCreateStore none none c n = createNewStore n ∧
    loadOrCreateStore (some pf) (some p) true n = createNewStore n ∧
    loadOrCreateStore (some pf) none c n = createNewStore n ∧
    (createNewStore n).1 =
      [⟨freshId n, "initialization document",
        [("source", .str "initialization")]⟩] := by
  exact ⟨rfl, rfl, rfl, rfl, rfl⟩

/-- C7: `similarity_search` returns the empty list — and, catching every
exception of the underlying search, never raises (it is a total function
into `List Document`) — whenever the store has zero entries or the
embedder capability fails; an empty result is thus the caller's only
"no local match" signal. -/
theorem similarity_search_empty_store_or_embed_failure (st : VSState)
    (q : String) (k : Nat) (filter : Option (Metadata → Bool))
    (score : String → String → Int) (embedFails : Bool)
    (h : st.mem = [] ∨ embedFails = true) :
    similaritySearch st q k filter score embedFails = [] := by
  rcases h with h | h
  · cases embedFails
    · cases filter <;>
        simp [similaritySearch, faissSimilaritySearch, h, sortByScoreDesc]
    · simp [similaritySearch, faissSimilaritySearch]
  · simp [similaritySearch, faissSimilaritySearch, h]

/-- Witness for C7 at a concrete empty store. -/
theorem similarity_search_empty_store_witness :
    similaritySearch ⟨[], 0, none, none, [], []⟩ "q" 4 none (fun _ _ => 0)
      false = [] :=
  similarity_search_empty_store_or_embed_failure ⟨[], 0, none, none, [], []⟩
    "q" 4 none (fun _ _ => 0) false (Or.inl rfl)

/-- The accumulation loop of the web search equals filter-then-take,
relative to the room left in the accumulator. -/
lemma searchLoop_eq (maxR : Nat) (hits : List Hit) :
    ∀ acc : List SearchResult, acc.length ≤ maxR →
      searchLoop maxR hits acc =
        acc ++ ((hits.filter (fun h => isKenyanDomain h.link)).take
          (maxR - acc.length)).map toResult := by
  induction hits with
  | nil => intro acc _; simp [searchLoop]
  | cons r rest ih =>
      intro acc hle
      by_cases hk : isKenyanDomain r.link
      · by_cases hlt : acc.length < maxR
        · have hstep : searchLoop maxR (r :: rest) acc =
              searchLoop maxR rest (acc ++ [toResult r]) := by
            simp [searchLoop, hk, hlt]
          rw [hstep, ih (acc ++ [toResult r]) (by simp; omega)]
          obtain ⟨m, hm⟩ : ∃ m, maxR - acc.length = m + 1 :=
            ⟨maxR - acc.length - 1, by omega⟩
          have hm' : maxR - (acc.length + 1) = m := by omega
          simp [List.filter_cons, hk, hm, hm', List.take_succ_cons]
        · have hacc : maxR - acc.length = 0 := by omega
          have hstep : searchLoop maxR (r :: rest) acc =
              searchLoop maxR rest acc := by
            simp [searchLoop, hlt]
          rw [hstep, ih acc hle]
          simp [hacc]
      · have hstep : searchLoop maxR (r :: rest) acc =
            searchLoop maxR rest acc := by
          simp [searchLoop, hk]
        rw [hstep, ih acc hle]
        simp [List.filter_cons, hk]

/-- C8: the fallback web search keeps, in provider order, exactly the
provider hits whose link's domain passes the Kenyan allow-list test,
capped at `max_results = 5`: the result is `filter`-then-`take 5` of the
provider hits, so it has at most 5 elements and every returned link's
domain ends in one of the allow-listed suffixes. -/
theorem web_search_filter_and_cap (hits : List Hit) :
    KenyanWebSearch.search hits 5 =
      ((hits.filter (fun h => isKenyanDomain h.link)).take 5).map toResult ∧
    (KenyanWebSearch.search hits 5).length ≤ 5 ∧
    ∀ r ∈ KenyanWebSearch.search hits 5, isKenyanDomain r.link = true := by
  have heq : KenyanWebSearch.search hits 5 =
      ((hits.filter (fun h => isKenyanDomain h.link)).take 5).map toResult := by
    have h := searchLoop_eq 5 hits [] (by simp)
    simpa [KenyanWebSearch.search] using h
  refine ⟨heq, ?_, ?_⟩
  · rw [heq]
    simp only [List.length_map]
    exact List.length_take_le 5 _
  · intro r hr
    rw [heq] at hr
    simp only [List.mem_map] at hr
    obtain ⟨h, hmem, hr⟩ := hr
    have hf := List.mem_of_mem_take hmem
    have := List.of_mem_filter hf
    subst hr
    exact this

/-- Witness for C8's membership clause at a concrete provider answer. -/
theorem web_search_filter_and_cap_witness :
    isKenyanDomain
      (toResult ⟨"t", "https://www.nation.co.ke/news", "b"⟩).link = true :=
  (web_search_filter_and_cap
      [⟨"t", "https://www.nation.co.ke/news", "b"⟩]).2.2
    (toResult ⟨"t", "https://www.nation.co.ke/news", "b"⟩) (by decide)

/-! ### Vector-store helper lemmas and concrete sample states -/

lemma createBackup_preserves (st : VSState) (ts : String) :
    (createBackup st ts).1.mem = st.mem ∧
    (createBackup st ts).1.cache = st.cache ∧
    (createBackup st ts).1.persisted = st.persisted ∧
    (createBackup st ts).1.nextId = st.nextId := by
  cases h : st.indexFile <;> simp [createBackup, h]

/-- On every state the program itself produces — the
`faiss_index`/`store.pkl` pair was never written — `create_backup` is a
pure no-op. -/
lemma createBackup_noop (st : VSState) (ts : String)
    (h : st.indexFile = none) :
    createBackup st ts = (st, "No vector store to backup") := by
  simp [createBackup, h]

lemma buildEntries_length (n : Nat) (l : List (String × Metadata)) :
    (buildEntries n l).length = l.length := by
  induction l generalizing n with
  | nil => simp [buildEntries]
  | cons x rest ih => simp [buildEntries, ih]

/-- Every successful `add_documents` run kept the backups written by its
`create_backup` step untouched afterwards, and cleared the cache unless
it took the empty-chunk early return (in which case it stopped right
after the backup step). -/
lemma addDocuments_ok_inv (st : VSState) (docs : List Document) (ts : String)
    (f : FailSpec) (st' : VSState)
    (hok : addDocuments st docs ts f = .ok st') :
    st'.backups = (createBackup st ts).1.backups ∧
    (st'.cache = [] ∨
      (chunkDocuments defaultProcessor docs = [] ∧
        st' = (createBackup st ts).1)) := by
  simp only [addDocuments] at hok
  split at hok
  · exact absurd hok (by simp)
  split at hok
  · exact absurd hok (by simp)
  split at hok
  next hempty =>
    simp only [Except.ok.injEq] at hok
    subst hok
    refine ⟨rfl, Or.inr ⟨?_, rfl⟩⟩
    simpa [List.isEmpty_iff, List.map_eq_nil_iff] using hempty
  split at hok
  · exact absurd hok (by simp)
  split at hok
  · exact absurd hok (by simp)
  simp only [Except.ok.injEq] at hok
  subst hok
  exact ⟨rfl, Or.inl rfl⟩

/-- Every successful `delete_document` run kept the backups written by
its `create_backup` step and cleared the cache. -/
lemma deleteDocument_ok_inv (st : VSState) (docId ts : String) (f : FailSpec)
    (st' : VSState) (hok : deleteDocument st docId ts f = .ok st') :
    st'.backups = (createBackup st ts).1.backups ∧ st'.cache = [] := by
  simp only [deleteDocument] at hok
  split at hok
  · exact absurd hok (by simp)
  split at hok
  · exact absurd hok (by simp)
  split at hok
  · exact absurd hok (by simp)
  simp only [Except.ok.injEq] at hok
  subst hok
  exact ⟨rfl, rfl⟩

/-- Python `restore_backup` never touches the cache. -/
lemma restoreBackup_cache (st : VSState) (ts : String) :
    ((restoreBackup st ts).1).cache = st.cache := by
  cases h : lookupAssoc st.backups ts <;> simp [restoreBackup, h]

/-- Discriminate an `Except` outcome of a mutation. -/
def isErr : Except (String × VSState) VSState → Bool
  | .error _ => true
  | .ok _ => false

/-- The state carried by a mutation error (the state of the live objects
when the wrapped exception propagated); `dflt` for a success. -/
def errStateOf : Except (String × VSState) VSState → VSState → VSState
  | .error (_, s), _ => s
  | .ok _, dflt => dflt

/-- The state of a successful mutation; `dflt` for an error. -/
def okStateOf : Except (String × VSState) VSState → VSState → VSState
  | .ok s, _ => s
  | .error _, dflt => dflt

/-- A sample pre-existing entry, a previously persisted one-entry store
with a non-empty cache (its `index.faiss`/`index.pkl` pair written by
`save_local`; the `faiss_index`/`store.pkl` pair absent, as on every
program-produced state), and a one-document ingest batch, used by the
concrete counterexamples and witnesses. -/
def eg0 : Entry := ⟨"uuid-0", "old text", [("source", .str "s0")]⟩

def stEg : VSState := ⟨[eg0], 1, some [eg0], none, [], [⟨"k", "v", 99⟩]⟩

def docsEg : List Document := [⟨"hello", [("source", .str "t")]⟩]

/-! ### C1 — rollback on mutation failure -/

/-- C1 counterexample: on the sample store, an `add_documents` whose
`save_local` step fails re-raises the wrapped error with the in-memory
store already extended by the new chunk — the post-failure state differs
from the pre-mutation state, so no restore-from-snapshot happened. -/
theorem failed_add_not_restored_counterexample :
    isErr (addDocuments stEg docsEg "t1" saveFail) = true ∧
    (errStateOf (addDocuments stEg docsEg "t1" saveFail) stEg).mem ≠
      stEg.mem := by
  refine ⟨by decide, by decide⟩

/-- The run of `add_documents` whose `save_local` step fails, on a
non-empty chunk list: the wrapped error carries the state with the
in-memory entries already extended. -/
lemma addDocuments_saveFail_eq (st : VSState) (docs : List Document)
    (ts : String)
    (hne : ((chunkDocuments defaultProcessor docs).map
      (fun c => c.page_content)).isEmpty = false) :
    addDocuments st docs ts saveFail =
      .error ("Error adding documents: save failure",
        { (createBackup st ts).1 with
          mem := (createBackup st ts).1.mem ++
            buildEntries (createBackup st ts).1.nextId
              (((chunkDocuments defaultProcessor docs).map
                  (fun c => c.page_content)).zip
                ((chunkDocuments defaultProcessor docs).map
                  (fun c => c.metadata))),
          nextId := (createBackup st ts).1.nextId +
            ((chunkDocuments defaultProcessor docs).map
              (fun c => c.page_content)).length }) := by
  simp [addDocuments, saveFail, hne, addTexts]

/-- C1 amended: a failed `add_documents` re-raises the wrapped
`"Error adding documents: ..."` exception without any
restore-from-snapshot; when the post-mutation `save_local` step fails,
the error state keeps the already-mutated in-memory contents — the
pre-state entries extended by the new chunk entries — while the
persisted files still hold the pre-mutation contents: the store is left
partially mutated.  (A failed `delete_document` likewise only wraps and
re-raises, but its failures occur before any mutation, the
character-split id check of the FAISS delete raising first.) -/
theorem mutation_failure_no_rollback :
    ∀ (st : VSState) (docs : List Document) (ts : String),
      chunkDocuments defaultProcessor docs ≠ [] →
      ∃ st', addDocuments st docs ts saveFail =
          .error ("Error adding documents: save failure", st') ∧
        st'.persisted = st.persisted ∧
        st'.mem.length = st.mem.length +
          (chunkDocuments defaultProcessor docs).length ∧
        st'.mem ≠ st.mem := by
  intro st docs ts hch
  have hne : ((chunkDocuments defaultProcessor docs).map
      (fun c => c.page_content)).isEmpty = false := by
    simp [List.isEmpty_iff, List.map_eq_nil_iff, hch]
  refine ⟨_, addDocuments_saveFail_eq st docs ts hne, ?_, ?_, ?_⟩
  · simp [(createBackup_preserves st ts).2.2.1]
  · simp [buildEntries_length, List.length_zip, List.length_map,
      (createBackup_preserves st ts).1]
  · intro heq
    have hlen : 0 < (chunkDocuments defaultProcessor docs).length :=
      List.length_pos.mpr hch
    have hlen2 := congrArg List.length heq
    simp [buildEntries_length, List.length_zip, List.length_map,
      (createBackup_preserves st ts).1] at hlen2
    exact hch hlen2

/-- Witness for C1's amended theorem on the sample store. -/
theorem mutation_failure_no_rollback_witness :
    ∃ st', addDocuments stEg docsEg "t1" saveFail =
        .error ("Error adding documents: save failure", st') ∧
      st'.persisted = stEg.persisted ∧
      st'.mem.length = stEg.mem.length +
        (chunkDocuments defaultProcessor docsEg).length ∧
      st'.mem ≠ stEg.mem :=
  mutation_failure_no_rollback stEg docsEg "t1" (by decide)

/-! ### C2 — no snapshot ever precedes a commit -/

/-- C2: the claim fails as a code bug.  `create_backup` tests
`os.path.exists(persist_dir/"faiss_index")`, a file name that
`FAISS.save_local` (which writes `index.faiss`/`index.pkl`) never
creates, so on the sample store — previously persisted via `save_local`
— `create_backup` answers `"No vector store to backup"` without copying
anything, and the add nevertheless commits (the in-memory store grows
and is saved) with the backup directory still empty: a post-
initialization mutation commits with no snapshot of the pre-mutation
state ever taken. -/
theorem persisted_add_commits_without_snapshot :
    stEg.persisted = some [eg0] ∧
    createBackup stEg "t1" = (stEg, "No vector store to backup") ∧
    isErr (addDocuments stEg docsEg "t1" noFail) = false ∧
    (okStateOf (addDocuments stEg docsEg "t1" noFail) stEg).mem ≠ stEg.mem ∧
    (okStateOf (addDocuments stEg docsEg "t1" noFail) stEg).backups = [] := by
  exact ⟨rfl, rfl, by decide, by decide, by decide⟩

/-! ### C3 — cache invalidation -/

/-- A previously persisted one-entry store that owns an (empty) backup
directory `backup_b1` and a non-empty cache. -/
def stRes : VSState :=
  ⟨[eg0], 1, some [eg0], none, [("b1", [])], [⟨"k", "v", 99⟩]⟩

/-- C3 counterexample: a `restore_backup` that reports success
(`"Restored from backup b1"`) returns with the cache entry still in
place — `restore_backup` has no cache-clearing step — and a successful
`add_documents` of an empty batch also returns with the cache untouched
(it is the identity on the whole state: the no-op `create_backup`
followed by the empty-text early return). -/
theorem restore_leaves_cache_counterexample :
    (restoreBackup stRes "b1").2 = "Restored from backup b1" ∧
    (restoreBackup stRes "b1").1.cache = [⟨"k", "v", 99⟩] ∧
    addDocuments stEg [] "t2" noFail = .ok stEg := by
  exact ⟨rfl, rfl, rfl⟩

/-- C3 amended: every successful `delete_document` clears the cache, and
every successful `add_documents` whose chunk list is non-empty clears
the cache; but an add of an empty chunk list returns early with the
cache untouched, and `restore_backup` returns with the cache exactly as
before — it contains no cache-clearing step. -/
theorem cache_cleared_on_add_delete_not_restore :
    (∀ (st : VSState) (docs : List Document) (ts : String) (f : FailSpec)
      (st' : VSState), addDocuments st docs ts f = .ok st' →
      chunkDocuments defaultProcessor docs ≠ [] → st'.cache = []) ∧
    (∀ (st : VSState) (docId ts : String) (f : FailSpec) (st' : VSState),
      deleteDocument st docId ts f = .ok st' → st'.cache = []) ∧
    (∀ (st : VSState) (ts : String),
      ((restoreBackup st ts).1).cache = st.cache) := by
  refine ⟨?_, ?_, ?_⟩
  · intro st docs ts f st' hok hch
    rcases (addDocuments_ok_inv st docs ts f st' hok).2 with hc | ⟨hch', _⟩
    · exact hc
    · exact absurd hch' hch
  · intro st docId ts f st' hok
    exact (deleteDocument_ok_inv st docId ts f st' hok).2
  · intro st ts
    exact restoreBackup_cache st ts

/-- Witness for C3's amended theorem: a concrete successful add ends
with an empty cache. -/
theorem cache_cleared_on_mutation_witness :
    (okStateOf (addDocuments stEg docsEg "t1" noFail) stEg).cache = [] :=
  cache_cleared_on_add_delete_not_restore.1 stEg docsEg "t1" noFail
    (okStateOf (addDocuments stEg docsEg "t1" noFail) stEg) rfl (by decide)

/-! ### C5 — deleting an absent id -/

/-- Python `similarity_search` observes only the in-memory entries. -/
lemma similaritySearch_congr_mem (s₁ s₂ : VSState) (hmem : s₁.mem = s₂.mem)
    (q : String) (k : Nat) (filt : Option (Metadata → Bool))
    (sc : String → String → Int) (ef : Bool) :
    similaritySearch s₁ q k filt sc ef = similaritySearch s₂ q k filt sc ef := by
  unfold similaritySearch
  rw [hmem]

/-- C5: deleting an id absent from the store fails — the `ValueError`
from the FAISS delete is wrapped into the re-raised
`"Error deleting document: ..."` exception, the source-level rendering of
the spec's `IndexMutationError` — and the store is left observably
unchanged: same entries, same cache, same persisted files, hence the
same `get_stats` output and the same `similarity_search` results.

The two extra hypotheses pin the id discipline of the real program:
FAISS docstore ids are uuid4 strings, never shorter than two characters
(`huuid`), and the deleted entry id is a non-empty string (`hne` — for
the degenerate `delete("")` the character set is empty and the FAISS
delete is a silent no-op rather than a failure).  Under them, the FAISS
delete's character-wise missing-id check necessarily fires — each
single-character string of `docId` has length 1 and so is no entry's id
— and the `ValueError` is raised before anything is removed. -/
theorem delete_absent_id_fails_store_unchanged (st : VSState)
    (docId ts : String) (f : FailSpec)
    (huuid : ∀ e ∈ st.mem, 2 ≤ e.id.length)
    (hne : docId ≠ "")
    (h : ∀ e ∈ st.mem, e.id ≠ docId) :
    ∃ msg st', deleteDocument st docId ts f = .error (msg, st') ∧
      st'.mem = st.mem ∧ st'.cache = st.cache ∧
      st'.persisted = st.persisted ∧ getStats st' = getStats st ∧
      ∀ (q : String) (k : Nat) (filt : Option (Metadata → Bool))
        (sc : String → String → Int) (ef : Bool),
        similaritySearch st' q k filt sc ef =
          similaritySearch st q k filt sc ef := by
  cases hfb : f.failBackup
  · obtain ⟨l⟩ := docId
    cases l with
    | nil => exact absurd rfl hne
    | cons c cs =>
      have hmiss : (((String.mk (c :: cs)).toList.map
            (fun ch => String.mk [ch])).any
          (fun cid => (createBackup st ts).1.mem.all
            (fun e => e.id ≠ cid))) = true := by
        rw [List.any_eq_true]
        refine ⟨String.mk [c], by simp [String.toList], ?_⟩
        rw [List.all_eq_true]
        intro e he1
        rw [(createBackup_preserves st ts).1] at he1
        have h2 := huuid e he1
        simp only [decide_eq_true_eq]
        intro hcontra
        rw [hcontra] at h2
        simp [String.length] at h2
      refine ⟨"Error deleting document: Some specified ids do not exist",
        (createBackup st ts).1, ?_, (createBackup_preserves st ts).1,
        (createBackup_preserves st ts).2.1,
        (createBackup_preserves st ts).2.2.1, ?_, ?_⟩
      · simp only [deleteDocument, hfb]
        rw [hmiss]
        simp
      · simp [getStats, (createBackup_preserves st ts).1]
      · intro q k filt sc ef
        exact similaritySearch_congr_mem _ _ ((createBackup_preserves st ts).1)
          q k filt sc ef
  · refine ⟨"Error deleting document: backup failure", st, ?_, rfl, rfl, rfl,
      rfl, fun _ _ _ _ _ => rfl⟩
    simp [deleteDocument, hfb]

/-- Witness for C5: deleting the absent id `"nope"` on the sample
store. -/
theorem delete_absent_id_witness :
    ∃ msg st', deleteDocument stEg "nope" "t3" noFail = .error (msg, st') ∧
      st'.mem = stEg.mem ∧ st'.cache = stEg.cache ∧
      st'.persisted = stEg.persisted ∧ getStats st' = getStats stEg ∧
      ∀ (q : String) (k : Nat) (filt : Option (Metadata → Bool))
        (sc : String → String → Int) (ef : Bool),
        similaritySearch st' q k filt sc ef =
          similaritySearch stEg q k filt sc ef :=
  delete_absent_id_fails_store_unchanged stEg "nope" "t3" noFail (by decide)
    (by decide) (by decide)

/-! ### C6 — chunker failure conditions -/

/-- C6 counterexample: with `overlap = chunk_size = 1` the processor is
constructed without error and chunking a non-empty document succeeds
(the splitter only rejects `overlap > chunk_size`), and chunking an
empty-content document succeeds with an empty chunk list instead of
failing — both contradicting the claimed `IngestionError` conditions. -/
theorem chunker_overlap_eq_size_counterexample :
    DocumentProcessor.make 1 1 = .ok ⟨1, 1⟩ ∧
    chunkDocuments ⟨1, 1⟩ [⟨"a", []⟩] =
      [⟨"a", [("start_index", .int 0), ("chunk_id", .int 0),
              ("chunk_hash", .str (sha256Hex "a")), ("chunk_size", .int 1),
              ("total_chunks", .int 1)]⟩] ∧
    chunkDocuments defaultProcessor [⟨"", []⟩] = [] := by
  exact ⟨rfl, by decide, by decide⟩

/-- C6 amended: constructing the chunker fails (the splitter's
`ValueError`) exactly when `overlap > chunk_size` — equality is
accepted; chunking a document with empty content succeeds and yields an
empty chunk list rather than failing; and for any accepted parameters
chunking is a pure, deterministic function of its input (the embedding
is a total Lean function — no exception path and no I/O exists in it). -/
theorem chunker_failure_conditions :
    (∀ cs co : Int, co > cs → DocumentProcessor.make cs co =
      .error "Got a larger chunk overlap than chunk size, should be smaller.") ∧
    (∀ cs co : Int, co ≤ cs → DocumentProcessor.make cs co = .ok ⟨cs, co⟩) ∧
    (∀ (cs co : Int) (md : Metadata), chunkDocuments ⟨cs, co⟩ [⟨"", md⟩] = []) ∧
    (∀ (p : DocumentProcessor) (docs : List Document),
      chunkDocuments p docs = chunkDocuments p docs) := by
  refine ⟨?_, ?_, ?_, fun _ _ => rfl⟩
  · intro cs co h
    simp [DocumentProcessor.make, h]
  · intro cs co h
    simp [DocumentProcessor.make, not_lt.mpr h]
  · intro cs co md
    rfl

/-- Witness for C6's amended theorem at concrete parameters. -/
theorem chunker_failure_conditions_witness :
    DocumentProcessor.make 1000 2000 =
      .error "Got a larger chunk overlap than chunk size, should be smaller." ∧
    DocumentProcessor.make 1000 200 = .ok ⟨1000, 200⟩ :=
  ⟨chunker_failure_conditions.1 1000 2000 (by decide),
    chunker_failure_conditions.2.1 1000 200 (by decide)⟩

end RagKe
